import Mathlib

/-!
Shallow embedding of the `supa` storage client (`src/supa/storage.py` and
`src/supa/exceptions.py`): JSON values, Python datetime parsing
(`datetime.fromisoformat` on the grammar `YYYY-MM-DD[<sep>HH:MM[:SS[.fff|.ffffff]]]`,
timezone offsets not modelled), dict semantics, the `File` and `Bucket`
dataclasses with their `__post_init__` hooks, and every `StorageClient` /
`Bucket` operation as a function from a transport (`Request → Response`) to
the list of issued requests together with a result or raised exception.
-/

namespace Supa

/-- JSON values, as decoded by `Response.json()`. Objects keep key order,
mirroring Python dict insertion order. -/
inductive Json where
  | null
  | bool (b : Bool)
  | num (n : Int)
  | str (s : String)
  | arr (elems : List Json)
  | obj (fields : List (String × Json))
  deriving Repr

/-- Python exceptions that the storage code can raise. -/
inductive PyErr where
  | storageError (payload : Json)
  | jsonDecodeError
  | frozenInstanceError
  | typeError
  | valueError
  | keyError (key : String)
  deriving Repr

/-- A parsed `datetime.datetime` value (timezone-naive). -/
structure Datetime where
  year : Nat
  month : Nat
  day : Nat
  hour : Nat
  minute : Nat
  second : Nat
  microsecond : Nat
  deriving Repr, DecidableEq

def allDigits (cs : List Char) : Bool := cs.all Char.isDigit

def digitsToNat (cs : List Char) : Nat :=
  cs.foldl (fun acc c => acc * 10 + (c.toNat - 48)) 0

def daysInMonth (year month : Nat) : Nat :=
  if month = 2 then
    if year % 4 = 0 ∧ (year % 100 ≠ 0 ∨ year % 400 = 0) then 29 else 28
  else if month = 4 ∨ month = 6 ∨ month = 9 ∨ month = 11 then 30 else 31

/-- Parse the date part `YYYY-MM-DD` (exactly ten characters). -/
def parseDate : List Char → Option (Nat × Nat × Nat)
  | [y1, y2, y3, y4, '-', m1, m2, '-', d1, d2] =>
    if allDigits [y1, y2, y3, y4, m1, m2, d1, d2] then
      let y := digitsToNat [y1, y2, y3, y4]
      let m := digitsToNat [m1, m2]
      let d := digitsToNat [d1, d2]
      if 1 ≤ y ∧ y ≤ 9999 ∧ 1 ≤ m ∧ m ≤ 12 ∧ 1 ≤ d ∧ d ≤ daysInMonth y m then
        some (y, m, d)
      else none
    else none
  | _ => none

/-- Parse a fractional-seconds field of exactly three or six digits, yielding
microseconds. -/
def parseFraction : List Char → Option Nat
  | [a, b, c] =>
    if allDigits [a, b, c] then some (digitsToNat [a, b, c] * 1000) else none
  | [a, b, c, d, e, f] =>
    if allDigits [a, b, c, d, e, f] then some (digitsToNat [a, b, c, d, e, f]) else none
  | _ => none

/-- Parse the time part `HH:MM[:SS[.fff|.ffffff]]`. -/
def parseTime : List Char → Option (Nat × Nat × Nat × Nat)
  | h1 :: h2 :: ':' :: m1 :: m2 :: rest =>
    if allDigits [h1, h2, m1, m2] then
      let hh := digitsToNat [h1, h2]
      let mm := digitsToNat [m1, m2]
      if hh ≤ 23 ∧ mm ≤ 59 then
        match rest with
        | [] => some (hh, mm, 0, 0)
        | ':' :: s1 :: s2 :: frest =>
          if allDigits [s1, s2] then
            let ss := digitsToNat [s1, s2]
            if ss ≤ 59 then
              match frest with
              | [] => some (hh, mm, ss, 0)
              | '.' :: fs =>
                match parseFraction fs with
                | some us => some (hh, mm, ss, us)
                | none => none
              | _ => none
            else none
          else none
        | _ => none
      else none
    else none
  | _ => none

/-- `datetime.fromisoformat` on a string: ten-character date, then optionally a
single separator character followed by a time part. -/
def fromisoformatStr (s : String) : Option Datetime :=
  let cs := s.toList
  match parseDate (cs.take 10) with
  | none => none
  | some (y, m, d) =>
    match cs.drop 10 with
    | [] => some ⟨y, m, d, 0, 0, 0, 0⟩
    | _sep :: timecs =>
      match parseTime timecs with
      | some (hh, mm, ss, us) => some ⟨y, m, d, hh, mm, ss, us⟩
      | none => none

/-- A Python value sitting in a timestamp field before `__post_init__` runs:
a `str`, an already-parsed `datetime`, or anything else. -/
inductive PyTimestamp where
  | str (s : String)
  | dt (d : Datetime)
  | other
  deriving Repr, DecidableEq

/-- `datetime.fromisoformat` as called on a field value: a valid string parses,
an invalid string raises `ValueError`, a non-string raises `TypeError`. -/
def pyFromisoformat : PyTimestamp → Except PyErr Datetime
  | .str s =>
    match fromisoformatStr s with
    | some d => .ok d
    | none => .error .valueError
  | .dt _ => .error .typeError
  | .other => .error .typeError

/-- Update a key in a Python dict: replace in place when present, append when
absent (dict insertion-order semantics). -/
def dictInsert {α : Type} (kvs : List (String × α)) (k : String) (v : α) :
    List (String × α) :=
  if kvs.any (fun p => p.1 = k) then
    kvs.map (fun p => if p.1 = k then (k, v) else p)
  else kvs ++ [(k, v)]

/-- `{**a, **b}`: apply every update of `b` to `a`, left to right. -/
def dictMerge {α : Type} (a b : List (String × α)) : List (String × α) :=
  b.foldl (fun acc kv => dictInsert acc kv.1 kv.2) a

def dictLookup {α : Type} (kvs : List (String × α)) (k : String) : Option α :=
  (kvs.find? (fun p => p.1 = k)).map Prod.snd

inductive Method where
  | get
  | post
  | delete
  deriving Repr, DecidableEq

/-- One part of a multipart body: field name, transmitted filename, the raw
file content, and the content type attached to the part. -/
structure MultipartFile where
  field : String
  filename : String
  content : String
  contentType : String
  deriving Repr, DecidableEq

/-- An HTTP request as issued through the shared `AsyncClient` session:
`headers` is the effective header set on the wire (session headers, or the
`headers=` argument when the call site passes one). -/
structure Request where
  method : Method
  path : String
  jsonBody : Option Json
  headers : List (String × String)
  multipart : Option MultipartFile
  deriving Repr

/-- An HTTP response: status code, raw body, and the result of decoding the
body as JSON (`none` when the body is not valid JSON, so `.json()` raises). -/
structure Response where
  status : Nat
  content : String
  json? : Option Json
  deriving Repr

/-- `Response.is_success`: a 2xx status. `raise_for_status` raises `HTTPError`
for every other status. -/
def is_success (status : Nat) : Bool := 200 ≤ status ∧ status < 300

/-- `_handle_response`: return 2xx responses unchanged; otherwise raise
`StorageError(r.json())` — evaluating `r.json()` first, so an undecodable body
raises the JSON decoding error instead. -/
def _handle_response (r : Response) : Except PyErr Response :=
  if is_success r.status then .ok r
  else
    match r.json? with
    | some j => .error (.storageError j)
    | none => .error .jsonDecodeError

/-- `r.json()` as an expression: the decoded body, or a raised decode error. -/
def responseJson (r : Response) : Except PyErr Json :=
  match r.json? with
  | some j => .ok j
  | none => .error .jsonDecodeError

/-- The shared HTTP session configuration: base URL and default headers. -/
structure ClientState where
  base_url : String
  headers : List (String × String)
  deriving Repr

def Transport := Request → Response

/-- A storage operation: given a transport it produces the list of requests it
issued and either a result or a raised exception. -/
def StorageM (α : Type) := Transport → List Request × Except PyErr α

/-- An operation that sends one request, checks it with `_handle_response`,
and post-processes the successful response with `k`. -/
def netOp {α : Type} (req : Request) (k : Response → Except PyErr α) : StorageM α :=
  fun t => ([req], (_handle_response (t req)).bind k)

/-- An operation that performs no network call. -/
def pureOp {α : Type} (a : α) : StorageM α := fun _ => ([], .ok a)

/-- The `File` dataclass after a (hypothetically) successful construction. -/
structure FileRec where
  name : String
  bucket_id : String
  owner : String
  id : String
  created_at : Datetime
  updated_at : Datetime
  last_accessed_at : Datetime
  metadata : List (String × String)
  deriving Repr, DecidableEq

/-- `File(...)` construction. The dataclass is declared `frozen=True`, yet
`__post_init__` assigns `self.created_at = datetime.fromisoformat(self.created_at)`;
the right-hand side is evaluated first (so a bad timestamp raises its own
error), after which the frozen-instance guard rejects the assignment. -/
def mkFile (name bucket_id owner id : String)
    (created_at updated_at last_accessed_at : PyTimestamp)
    (metadata : List (String × String)) : Except PyErr FileRec := do
  let _ ← pyFromisoformat created_at
  .error .frozenInstanceError

/-- The `Bucket` dataclass: fields as declared, with the `_client` session
reference. Timestamp fields hold parsed datetimes after construction. -/
structure Bucket where
  id : String
  name : String
  owner : Option String
  public : Bool
  created_at : Datetime
  updated_at : Datetime
  client : ClientState
  deriving Repr

/-- `Bucket(...)` construction: `__post_init__` reassigns `created_at` and
`updated_at` through `datetime.fromisoformat` (the dataclass is not frozen,
so the assignments succeed). -/
def mkBucket (client : ClientState) (id name : String) (owner : Option String)
    (public : Bool) (created_at updated_at : PyTimestamp) : Except PyErr Bucket := do
  let c ← pyFromisoformat created_at
  let u ← pyFromisoformat updated_at
  .ok ⟨id, name, owner, public, c, u, client⟩

/-- A decoded JSON field landing in a timestamp slot of a dataclass. -/
def jsonToTimestamp : Json → PyTimestamp
  | .str s => .str s
  | _ => .other

def jsonStr? : Json → Option String
  | .str s => some s
  | _ => none

def jsonToOptStr : Json → Option (Option String)
  | .null => some none
  | .str s => some (some s)
  | _ => none

def jsonToStrDict : Json → Option (List (String × String))
  | .obj kvs => kvs.mapM (fun p => (jsonStr? p.2).map (fun s => (p.1, s)))
  | _ => none

/-- A Python list comprehension over a fallible body: evaluate left to right,
propagating the first raised exception. -/
def exceptMap {α β : Type} (f : α → Except PyErr β) : List α → Except PyErr (List β)
  | [] => .ok []
  | a :: as => do
    let b ← f a
    let bs ← exceptMap f as
    .ok (b :: bs)

def requiredBucketKeys : List String :=
  ["id", "name", "owner", "public", "created_at", "updated_at"]

/-- `Bucket(**data, _client=client)`: keyword expansion requires the decoded
object to carry exactly the dataclass fields; then the record is constructed
and `__post_init__` runs. -/
def bucketFromJson (client : ClientState) : Json → Except PyErr Bucket
  | .obj kvs =>
    if kvs.all (fun p => p.1 ∈ requiredBucketKeys) then
      match dictLookup kvs "id", dictLookup kvs "name", dictLookup kvs "owner",
          dictLookup kvs "public", dictLookup kvs "created_at",
          dictLookup kvs "updated_at" with
      | some (.str id), some (.str name), some ow, some (.bool pub), some c, some u =>
        match jsonToOptStr ow with
        | some owner =>
          mkBucket client id name owner pub (jsonToTimestamp c) (jsonToTimestamp u)
        | none => .error .typeError
      | _, _, _, _, _, _ => .error .typeError
    else .error .typeError
  | _ => .error .typeError

def requiredFileKeys : List String :=
  ["name", "bucket_id", "owner", "id", "created_at", "updated_at",
   "last_accessed_at", "metadata"]

/-- `File(**i)` on a decoded JSON object. -/
def fileFromJson : Json → Except PyErr FileRec
  | .obj kvs =>
    if kvs.all (fun p => p.1 ∈ requiredFileKeys) then
      match dictLookup kvs "name", dictLookup kvs "bucket_id", dictLookup kvs "owner",
          dictLookup kvs "id", dictLookup kvs "created_at", dictLookup kvs "updated_at",
          dictLookup kvs "last_accessed_at", dictLookup kvs "metadata" with
      | some (.str nm), some (.str bid), some (.str ow), some (.str id),
          some c, some u, some la, some md =>
        match jsonToStrDict md with
        | some meta =>
          mkFile nm bid ow id (jsonToTimestamp c) (jsonToTimestamp u)
            (jsonToTimestamp la) meta
        | none => .error .typeError
      | _, _, _, _, _, _, _, _ => .error .typeError
    else .error .typeError
  | _ => .error .typeError

/-- Python truthiness of `path or ""` for `path : Optional[str]`. -/
def pyOr (path : Option String) (dflt : String) : String :=
  match path with
  | none => dflt
  | some s => if s = "" then dflt else s

/-- Python `str(bool)`. -/
def pyStrBool (b : Bool) : String := if b then "True" else "False"

/-- `path.rsplit("/", maxsplit=1)[-1]`: the last `/`-separated segment. -/
def rsplitLastSeg (s : String) : String := (s.splitOn "/").getLastD ""

def delete_bucket_request (client : ClientState) (id : String) : Request :=
  { method := .delete, path := "/bucket/" ++ id, jsonBody := none,
    headers := client.headers, multipart := none }

/-- `_delete_bucket`: `DELETE /bucket/{id}`, returning the decoded body. -/
def _delete_bucket (client : ClientState) (id : String) : StorageM Json :=
  netOp (delete_bucket_request client id) responseJson

def empty_bucket_request (client : ClientState) (id : String) : Request :=
  { method := .post, path := "/bucket/" ++ id ++ "/empty",
    jsonBody := some (.obj []), headers := client.headers, multipart := none }

/-- `_empty_bucket`: `POST /bucket/{id}/empty` with body `{}`. -/
def _empty_bucket (client : ClientState) (id : String) : StorageM Json :=
  netOp (empty_bucket_request client id) responseJson

def download_request (client : ClientState) (fp : String) : Request :=
  { method := .get, path := "/object/authenticated/" ++ fp, jsonBody := none,
    headers := client.headers, multipart := none }

/-- `_download_content`: `GET /object/authenticated/{fp}`, returning the raw
body bytes undecoded. -/
def _download_content (client : ClientState) (fp : String) : StorageM String :=
  netOp (download_request client fp) (fun r => .ok r.content)

/-- `Bucket.get_public_url`: pure string construction, no network call. -/
def Bucket.get_public_url (b : Bucket) (path : String) : StorageM String :=
  pureOp (b.client.base_url ++ "/object/public/" ++ path)

def signed_url_request (b : Bucket) (path : String) (expires_in : Int) : Request :=
  { method := .post, path := "/object/sign/" ++ b.name ++ "/" ++ path,
    jsonBody := some (.obj [("expiresIn", .str (toString expires_in))]),
    headers := b.client.headers, multipart := none }

/-- `Bucket.create_signed_url`: POST the expiry, return `r.json()["signedURL"]`. -/
def Bucket.create_signed_url (b : Bucket) (path : String) (expires_in : Int) :
    StorageM Json :=
  netOp (signed_url_request b path expires_in) (fun r => do
    match ← responseJson r with
    | .obj kvs =>
      match dictLookup kvs "signedURL" with
      | some v => .ok v
      | none => .error (.keyError "signedURL")
    | _ => .error .typeError)

/-- `Bucket.delete`, delegating to `_delete_bucket` on this bucket's id. -/
def Bucket.delete (b : Bucket) : StorageM Json :=
  _delete_bucket b.client b.id

/-- `Bucket.empty`, delegating to `_empty_bucket` on this bucket's id. -/
def Bucket.empty (b : Bucket) : StorageM Json :=
  _empty_bucket b.client b.id

def move_request (b : Bucket) (from_path to_path : String) : Request :=
  { method := .post, path := "/object/move",
    jsonBody := some (.obj [("bucketId", .str b.id), ("sourceKey", .str from_path),
      ("destinationKey", .str to_path)]),
    headers := b.client.headers, multipart := none }

/-- `Bucket.move`: POST `{bucketId, sourceKey, destinationKey}` to `/object/move`. -/
def Bucket.move (b : Bucket) (from_path to_path : String) : StorageM Json :=
  netOp (move_request b from_path to_path) responseJson

def copy_request (b : Bucket) (file_path target : String) : Request :=
  { method := .post, path := "/object/move",
    jsonBody := some (.obj [("bucketId", .str b.id), ("sourceKey", .str file_path),
      ("destinationKey", .str target)]),
    headers := b.client.headers, multipart := none }

/-- `Bucket.copy`: the source builds the same body as `move` and POSTs it to
the same `/object/move` endpoint. -/
def Bucket.copy (b : Bucket) (file_path target : String) : StorageM Json :=
  netOp (copy_request b file_path target) responseJson

def remove_request (b : Bucket) (path : String) : Request :=
  { method := .delete, path := "/object/" ++ b.name ++ "/" ++ path,
    jsonBody := none, headers := b.client.headers, multipart := none }

/-- `Bucket.remove`: `DELETE /object/{name}/{path}`. -/
def Bucket.remove (b : Bucket) (path : String) : StorageM Json :=
  netOp (remove_request b path) responseJson

def bulk_remove_request (b : Bucket) (paths : List String) : Request :=
  { method := .delete, path := "/object/" ++ b.name,
    jsonBody := some (.obj [("prefixes", .arr (paths.map Json.str))]),
    headers := b.client.headers, multipart := none }

/-- `[File(**i) for i in r.json()]`: one `File` per element of the decoded
response array. -/
def decodeFileList (r : Response) : Except PyErr (List FileRec) := do
  match ← responseJson r with
  | .arr items => exceptMap fileFromJson items
  | _ => .error .typeError

/-- `Bucket.bulk_remove`: DELETE with `{prefixes: paths}`, then build one
`File` per element of the decoded response array. -/
def Bucket.bulk_remove (b : Bucket) (paths : List String) : StorageM (List FileRec) :=
  netOp (bulk_remove_request b paths) decodeFileList

def DEFAULT_SEARCH_OPTIONS : List (String × Json) :=
  [("limit", .num 100), ("offset", .num 0),
   ("sortBy", .obj [("column", .str "name"), ("order", .str "asc")])]

/-- The listing body `{"prefix": path or "", **DEFAULT_SEARCH_OPTIONS, **options}`. -/
def listRequestBody (path : Option String) (options : List (String × Json)) :
    List (String × Json) :=
  dictMerge (dictMerge [("prefix", .str (pyOr path ""))] DEFAULT_SEARCH_OPTIONS) options

def list_request (b : Bucket) (path : Option String) (options : List (String × Json)) :
    Request :=
  { method := .post, path := "/object/list/" ++ b.name,
    jsonBody := some (.obj (listRequestBody path options)),
    headers := dictMerge b.client.headers [("Content-Type", "application/json")],
    multipart := none }

/-- `Bucket.list`: POST the merged search options, decode an array of `File`s. -/
def Bucket.list (b : Bucket) (path : Option String) (options : List (String × Json)) :
    StorageM (List FileRec) :=
  netOp (list_request b path options) decodeFileList

/-- `Bucket.download`, delegating to `_download_content` on `{name}/{path}`. -/
def Bucket.download (b : Bucket) (path : String) : StorageM String :=
  _download_content b.client (b.name ++ "/" ++ path)

/-- The headers dict built at the top of `Bucket.upload`:
`{**self._client.headers, "cacheControl": ..., "contentType": ..., "upsert": ..., "Content-Type": ...}`. -/
def Bucket.uploadHeaders (b : Bucket) (cache_control : Int) (mime_type : String)
    (upsert : Bool) : List (String × String) :=
  dictMerge b.client.headers
    [("cacheControl", toString cache_control), ("contentType", mime_type),
     ("upsert", pyStrBool upsert), ("Content-Type", mime_type)]

def upload_request (b : Bucket) (path : String) (file : String)
    (cache_control : Int) (mime_type : String) (upsert : Bool) : Request :=
  { method := .post, path := "/object/" ++ b.name ++ "/" ++ path,
    jsonBody := none,
    headers := b.client.headers,
    multipart := some
      { field := "file", filename := rsplitLastSeg path, content := file,
        contentType :=
          (dictLookup (b.uploadHeaders cache_control mime_type upsert) "contentType").getD "" } }

/-- `Bucket.upload`: multipart POST of `{"file": (filename, file, headers["contentType"])}`.
The headers dict is constructed but the `post` call passes only `files=`, so
the request goes out under the session headers alone. -/
def Bucket.upload (b : Bucket) (path : String) (file : String)
    (cache_control : Int) (mime_type : String) (upsert : Bool) : StorageM Json :=
  netOp (upload_request b path file cache_control mime_type upsert) responseJson

def list_buckets_request (client : ClientState) : Request :=
  { method := .get, path := "/bucket", jsonBody := none,
    headers := client.headers, multipart := none }

/-- `StorageClient.list_buckets`: GET `/bucket`, decode an array of `Bucket`s. -/
def StorageClient.list_buckets (client : ClientState) : StorageM (List Bucket) :=
  netOp (list_buckets_request client) (fun r => do
    match ← responseJson r with
    | .arr items => exceptMap (bucketFromJson client) items
    | _ => .error .typeError)

def get_bucket_request (client : ClientState) (id : String) : Request :=
  { method := .get, path := "/bucket/" ++ id, jsonBody := none,
    headers := client.headers, multipart := none }

/-- `StorageClient.get_bucket`: GET `/bucket/{id}`, decode one `Bucket`. -/
def StorageClient.get_bucket (client : ClientState) (id : String) : StorageM Bucket :=
  netOp (get_bucket_request client id) (fun r => do
    bucketFromJson client (← responseJson r))

def create_bucket_request (client : ClientState) (id : String) (name : Option String)
    (public : Bool) : Request :=
  { method := .post, path := "/bucket",
    jsonBody := some (.obj [("id", .str id), ("name", .str (pyOr name id)),
      ("public", .bool public)]),
    headers := client.headers, multipart := none }

/-- `StorageClient.create_bucket`: POST the creation body, then synthesize the
returned `Bucket` locally with `created_at`/`updated_at` both `datetime.now()`
— which `__post_init__` then feeds back into `datetime.fromisoformat`. -/
def StorageClient.create_bucket (client : ClientState) (id : String)
    (name : Option String) (public : Bool) (now : Datetime) : StorageM Bucket :=
  netOp (create_bucket_request client id name public)
    (fun _r => mkBucket client id (pyOr name id) none public (.dt now) (.dt now))

/-- `StorageClient.empty_bucket`, delegating to `_empty_bucket`. -/
def StorageClient.empty_bucket (client : ClientState) (id : String) : StorageM Json :=
  _empty_bucket client id

/-- `StorageClient.delete_bucket`, delegating to `_delete_bucket`. -/
def StorageClient.delete_bucket (client : ClientState) (id : String) : StorageM Json :=
  _delete_bucket client id

/-- The defaults dict as the specification states it:
`{prefix: path or "", limit: 100, offset: 0, sortBy: {column: "name", order: "asc"}}`. -/
def listDefaults (path : Option String) : List (String × Json) :=
  [("prefix", .str (pyOr path "")), ("limit", .num 100), ("offset", .num 0),
   ("sortBy", .obj [("column", .str "name"), ("order", .str "asc")])]

/-- A concrete session configuration for concrete evaluations. -/
def sampleClient : ClientState :=
  { base_url := "https://proj.example.com/storage/v1",
    headers := [("apiKey", "k"), ("Authorization", "Bearer k")] }

def sampleDt : Datetime := ⟨2021, 1, 1, 0, 0, 0, 0⟩

def sampleBucket : Bucket :=
  { id := "bkt", name := "bkt", owner := none, public := false,
    created_at := sampleDt, updated_at := sampleDt, client := sampleClient }

/-- A transport answering every request with a 404 whose body decodes to JSON. -/
def err404Transport : Transport :=
  fun _ => { status := 404, content := "\x22nope\x22", json? := some (.str "nope") }

/-- A transport answering every request with a 500 whose body is not JSON. -/
def err500RawTransport : Transport :=
  fun _ => { status := 500, content := "<html>oops", json? := none }

/-- A transport answering every request with `200 {}`. -/
def okEmptyObjTransport : Transport :=
  fun _ => { status := 200, content := "\x7b\x7d", json? := some (.obj []) }

/-- A transport answering every request with `200 []`. -/
def okEmptyArrTransport : Transport :=
  fun _ => { status := 200, content := "[]", json? := some (.arr []) }

/-- A well-formed object-record JSON value as the service returns it. -/
def fileJson (nm : String) : Json :=
  .obj [("name", .str nm), ("bucket_id", .str "bkt"), ("owner", .str "own"),
    ("id", .str nm), ("created_at", .str "2021-01-01T00:00:00"),
    ("updated_at", .str "2021-01-01T00:00:00"),
    ("last_accessed_at", .str "2021-01-01T00:00:00"), ("metadata", .obj [])]

/-- A transport reporting that exactly two objects were removed. -/
def okTwoFilesTransport : Transport :=
  fun _ => { status := 200, content := "[...]",
             json? := some (.arr [fileJson "a", fileJson "b"]) }

theorem handle_response_success (r : Response) (h : is_success r.status = true) :
    _handle_response r = .ok r := by
  simp [_handle_response, h]

theorem handle_response_storageError (r : Response) (j : Json)
    (h1 : is_success r.status = false) (h2 : r.json? = some j) :
    _handle_response r = .error (.storageError j) := by
  simp [_handle_response, h1, h2]

theorem handle_response_decodeError (r : Response)
    (h1 : is_success r.status = false) (h2 : r.json? = none) :
    _handle_response r = .error .jsonDecodeError := by
  simp [_handle_response, h1, h2]

theorem netOp_snd {α : Type} (req : Request) (k : Response → Except PyErr α)
    (t : Transport) :
    (netOp req k t).2 = (_handle_response (t req)).bind k := rfl

theorem netOp_fst {α : Type} (req : Request) (k : Response → Except PyErr α)
    (t : Transport) :
    (netOp req k t).1 = [req] := rfl

theorem netOp_storageError {α : Type} (req : Request) (k : Response → Except PyErr α)
    (t : Transport) (j : Json)
    (h1 : is_success ((t req).status) = false) (h2 : (t req).json? = some j) :
    (netOp req k t).2 = .error (.storageError j) := by
  rw [netOp_snd, handle_response_storageError (t req) j h1 h2]
  rfl

theorem netOp_decodeError {α : Type} (req : Request) (k : Response → Except PyErr α)
    (t : Transport)
    (h1 : is_success ((t req).status) = false) (h2 : (t req).json? = none) :
    (netOp req k t).2 = .error .jsonDecodeError := by
  rw [netOp_snd, handle_response_decodeError (t req) h1 h2]
  rfl

theorem mkFile_ne_ok (name bucket_id owner id : String)
    (ca ua la : PyTimestamp) (md : List (String × String)) (f : FileRec) :
    mkFile name bucket_id owner id ca ua la md ≠ .ok f := by
  unfold mkFile
  cases h : pyFromisoformat ca <;> simp [h, Bind.bind, Except.bind]

theorem fileFromJson_ne_ok (j : Json) (f : FileRec) : fileFromJson j ≠ .ok f := by
  cases j with
  | null => simp [fileFromJson]
  | bool b => simp [fileFromJson]
  | num n => simp [fileFromJson]
  | str s => simp [fileFromJson]
  | arr elems => simp [fileFromJson]
  | obj kvs =>
    simp only [fileFromJson]
    split
    · split
      · split
        · apply mkFile_ne_ok
        · simp
      · simp
    · simp

theorem exceptMap_fileFromJson_ok (items : List Json) (files : List FileRec)
    (h : exceptMap fileFromJson items = .ok files) : files = [] := by
  cases items with
  | nil =>
    rw [exceptMap] at h
    exact (Except.ok.inj h).symm
  | cons i rest =>
    cases hf : fileFromJson i with
    | error e =>
      rw [exceptMap, hf] at h
      simp [Bind.bind, Except.bind] at h
    | ok f => exact absurd hf (fileFromJson_ne_ok i f)

theorem dictLookup_cons {α : Type} (x : String × α) (tl : List (String × α)) (k : String) :
    dictLookup (x :: tl) k = if x.1 = k then some x.2 else dictLookup tl k := by
  by_cases h : x.1 = k
  · simp [dictLookup, List.find?_cons_of_pos, h]
  · simp [dictLookup, List.find?_cons_of_neg, h]

theorem dictLookup_eq_none_of_any_eq_false {α : Type} (a : List (String × α)) (k : String)
    (h : (a.any fun p => p.1 = k) = false) : dictLookup a k = none := by
  induction a with
  | nil => rfl
  | cons x tl ih =>
    simp only [List.any_cons, Bool.or_eq_false_iff, decide_eq_false_iff_not] at h
    rw [dictLookup_cons, if_neg h.1]
    exact ih (by simpa using h.2)

theorem any_key_eq_false_of_not_mem {α : Type} (l : List (String × α)) (k : String)
    (h : k ∉ l.map Prod.fst) : (l.any fun p => p.1 = k) = false := by
  rw [List.any_eq_false]
  intro p hp
  simp only [decide_eq_true_eq]
  exact fun hpk => h (List.mem_map.mpr ⟨p, hp, hpk⟩)

theorem dictLookup_map_replace {α : Type} (a : List (String × α)) (k : String) (v : α)
    (h : (a.any fun p => p.1 = k) = true) :
    dictLookup (a.map fun p => if p.1 = k then (k, v) else p) k = some v := by
  induction a with
  | nil => simp at h
  | cons x tl ih =>
    simp only [List.map_cons]
    by_cases hx : x.1 = k
    · rw [if_pos hx, dictLookup_cons, if_pos rfl]
    · rw [if_neg hx, dictLookup_cons, if_neg hx]
      exact ih (by simpa [List.any_cons, hx] using h)

theorem dictLookup_map_replace_ne {α : Type} (a : List (String × α)) (k q : String) (v : α)
    (hq : q ≠ k) :
    dictLookup (a.map fun p => if p.1 = k then (k, v) else p) q = dictLookup a q := by
  induction a with
  | nil => rfl
  | cons x tl ih =>
    simp only [List.map_cons]
    by_cases hx : x.1 = k
    · have h1 : ¬(k = q) := fun h => hq h.symm
      have h2 : ¬(x.1 = q) := by rw [hx]; exact h1
      rw [if_pos hx, dictLookup_cons, dictLookup_cons, if_neg h1, if_neg h2, ih]
    · rw [if_neg hx, dictLookup_cons, dictLookup_cons, ih]

theorem dictLookup_append_single {α : Type} (a : List (String × α)) (k : String) (v : α)
    (h : dictLookup a k = none) : dictLookup (a ++ [(k, v)]) k = some v := by
  induction a with
  | nil => simp [dictLookup]
  | cons x tl ih =>
    rw [dictLookup_cons] at h
    by_cases hx : x.1 = k
    · rw [if_pos hx] at h
      exact absurd h (by simp)
    · rw [if_neg hx] at h
      rw [List.cons_append, dictLookup_cons, if_neg hx]
      exact ih h

theorem dictLookup_append_single_ne {α : Type} (a : List (String × α)) (k q : String)
    (v : α) (hq : q ≠ k) : dictLookup (a ++ [(k, v)]) q = dictLookup a q := by
  induction a with
  | nil =>
    have h1 : ¬(k = q) := fun h => hq h.symm
    simp [dictLookup, h1]
  | cons x tl ih =>
    rw [List.cons_append, dictLookup_cons, dictLookup_cons, ih]

theorem dictLookup_insert {α : Type} (a : List (String × α)) (k q : String) (v : α) :
    dictLookup (dictInsert a k v) q = if q = k then some v else dictLookup a q := by
  by_cases hq : q = k
  · subst hq
    rw [if_pos rfl]
    unfold dictInsert
    split
    · exact dictLookup_map_replace a q v ‹_›
    · have hfalse : (a.any fun p => p.1 = q) = false := by
        cases hb : a.any fun p => p.1 = q with
        | false => rfl
        | true => exact absurd hb ‹¬ _›
      exact dictLookup_append_single a q v (dictLookup_eq_none_of_any_eq_false a q hfalse)
  · rw [if_neg hq]
    unfold dictInsert
    split
    · exact dictLookup_map_replace_ne a k q v hq
    · exact dictLookup_append_single_ne a k q v hq

theorem dictLookup_merge {α : Type} (a b : List (String × α)) (k : String)
    (hnd : (b.map Prod.fst).Nodup) :
    dictLookup (dictMerge a b) k =
      (dictLookup b k).orElse (fun _ => dictLookup a k) := by
  induction b generalizing a with
  | nil =>
    cases h : dictLookup ([] : List (String × α)) k with
    | none => rfl
    | some v => exact absurd h (by simp [dictLookup])
  | cons x rest ih =>
    rw [List.map_cons, List.nodup_cons] at hnd
    show dictLookup (dictMerge (dictInsert a x.1 x.2) rest) k = _
    rw [ih (dictInsert a x.1 x.2) hnd.2, dictLookup_cons, dictLookup_insert]
    by_cases hk : k = x.1
    · have hrest : dictLookup rest k = none := by
        refine dictLookup_eq_none_of_any_eq_false rest k
          (any_key_eq_false_of_not_mem rest k ?_)
        rw [hk]
        exact hnd.1
      rw [hrest, if_pos hk, if_pos hk.symm]
      rfl
    · have hx1 : ¬(x.1 = k) := fun h => hk h.symm
      rw [if_neg hk, if_neg hx1]

theorem netOp_ok_inv {α : Type} (req : Request) (k : Response → Except PyErr α)
    (t : Transport) (a : α) (h : (netOp req k t).2 = .ok a) :
    ∃ r, k r = .ok a := by
  rw [netOp_snd] at h
  cases hh : _handle_response (t req) with
  | error e =>
    rw [hh] at h
    simp [Except.bind] at h
  | ok r =>
    rw [hh] at h
    exact ⟨r, by simpa [Except.bind] using h⟩

theorem decodeFileList_ok (r : Response) (files : List FileRec)
    (h : decodeFileList r = .ok files) : files = [] := by
  unfold decodeFileList responseJson at h
  cases hj : r.json? with
  | none =>
    rw [hj] at h
    simp [Bind.bind, Except.bind] at h
  | some j =>
    rw [hj] at h
    cases j with
    | arr items =>
      exact exceptMap_fileFromJson_ok items files (by simpa [Bind.bind, Except.bind] using h)
    | null => simp [Bind.bind, Except.bind] at h
    | bool b => simp [Bind.bind, Except.bind] at h
    | num n => simp [Bind.bind, Except.bind] at h
    | str s => simp [Bind.bind, Except.bind] at h
    | obj kvs => simp [Bind.bind, Except.bind] at h

/-- C2: for every bucket and every pair of path arguments, `Bucket.move` and
`Bucket.copy` are behaviorally equal — both issue a single POST to
`/object/move` with body `{bucketId: bucket id, sourceKey: first argument,
destinationKey: second argument}`. -/
theorem C2_move_copy_equivalent (b : Bucket) (p q : String) :
    b.move p q = b.copy p q ∧
    move_request b p q =
      { method := .post, path := "/object/move",
        jsonBody := some (.obj [("bucketId", .str b.id), ("sourceKey", .str p),
          ("destinationKey", .str q)]),
        headers := b.client.headers, multipart := none } ∧
    ∀ t, (b.move p q t).1 = [move_request b p q] :=
  ⟨rfl, rfl, fun _ => rfl⟩

/-- C8: `Bucket.get_public_url` issues no request under any transport and
returns exactly the base URL, `/object/public/`, and the path concatenated:
a pure function of the base URL and the path. -/
theorem C8_get_public_url_pure (b : Bucket) (path : String) (t : Transport) :
    b.get_public_url path t =
      ([], .ok (b.client.base_url ++ "/object/public/" ++ path)) := rfl

/-- C4: a valid ISO-8601 timestamp string parses and a `Bucket` constructed
from it carries the parsed value, an invalid string makes `Bucket`
construction fail — but a `File` constructed with the same valid timestamp
raises `FrozenInstanceError` rather than yielding an instance, refuting the
claim's `File` half. -/
theorem C4_file_timestamp_construction_fails :
    fromisoformatStr "2021-01-01T00:00:00" = some ⟨2021, 1, 1, 0, 0, 0, 0⟩ ∧
    mkBucket sampleClient "b" "b" none false (.str "2021-01-01T00:00:00")
        (.str "2021-01-01T00:00:00") =
      .ok { id := "b", name := "b", owner := none, public := false,
            created_at := ⟨2021, 1, 1, 0, 0, 0, 0⟩,
            updated_at := ⟨2021, 1, 1, 0, 0, 0, 0⟩, client := sampleClient } ∧
    mkBucket sampleClient "b" "b" none false (.str "not-a-timestamp")
        (.str "2021-01-01T00:00:00") = .error .valueError ∧
    mkFile "f" "bkt" "own" "id" (.str "2021-01-01T00:00:00")
        (.str "2021-01-01T00:00:00") (.str "2021-01-01T00:00:00") [] =
      .error .frozenInstanceError :=
  ⟨rfl, rfl, rfl, rfl⟩

/-- C5: on any 2xx creation response, `StorageClient.create_bucket` raises
`TypeError` instead of returning the synthesized `Bucket`: the locally built
record carries `datetime.now()` values that `Bucket.__post_init__` feeds back
into `datetime.fromisoformat`, which requires a string. -/
theorem C5_create_bucket_typeerror (client : ClientState) (id : String)
    (name : Option String) (public : Bool) (now : Datetime) (t : Transport)
    (h : is_success ((t (create_bucket_request client id name public)).status) = true) :
    (StorageClient.create_bucket client id name public now t).2 = .error .typeError := by
  show (netOp (create_bucket_request client id name public) _ t).2 = _
  rw [netOp_snd, handle_response_success _ h]
  rfl

theorem C5_create_bucket_typeerror_witness :
    is_success ((okEmptyObjTransport (create_bucket_request sampleClient "x" none false)).status) = true ∧
    (StorageClient.create_bucket sampleClient "x" none false sampleDt okEmptyObjTransport).2 =
      .error .typeError :=
  ⟨rfl, C5_create_bucket_typeerror sampleClient "x" none false sampleDt okEmptyObjTransport rfl⟩

/-- C7: at the failing input — three requested paths, a service response
reporting two removed objects — `Bucket.bulk_remove` raises
`FrozenInstanceError` while constructing the first `File` record instead of
returning two records. -/
theorem C7_bulk_remove_frozen_failure :
    (Bucket.bulk_remove sampleBucket ["a", "b", "c"] okTwoFilesTransport).2 =
      .error .frozenInstanceError ∧
    ∀ files, (Bucket.bulk_remove sampleBucket ["a", "b", "c"] okTwoFilesTransport).2 ≠
      .ok files := by
  have h1 : (Bucket.bulk_remove sampleBucket ["a", "b", "c"] okTwoFilesTransport).2 =
      .error .frozenInstanceError := rfl
  exact ⟨h1, fun files h => by rw [h1] at h; exact Except.noConfusion h⟩

/-- C1: `_handle_response` returns 2xx responses unchanged and turns any
non-2xx response into `StorageError` carrying exactly the decoded JSON body;
under a transport that answers every request with such a non-2xx response,
every `StorageClient` and `Bucket` network operation surfaces that
`StorageError` unmodified — none catches or replaces it. -/
theorem C1_uniform_storage_error (r : Response) (j jt : Json) (t : Transport)
    (ht : ∀ req, is_success ((t req).status) = false ∧ (t req).json? = some jt) :
    (is_success r.status = true → _handle_response r = .ok r) ∧
    (is_success r.status = false → r.json? = some j →
      _handle_response r = .error (.storageError j)) ∧
    (∀ c, (StorageClient.list_buckets c t).2 = .error (.storageError jt)) ∧
    (∀ c id, (StorageClient.get_bucket c id t).2 = .error (.storageError jt)) ∧
    (∀ c id name public now,
      (StorageClient.create_bucket c id name public now t).2 = .error (.storageError jt)) ∧
    (∀ c id, (StorageClient.empty_bucket c id t).2 = .error (.storageError jt)) ∧
    (∀ c id, (StorageClient.delete_bucket c id t).2 = .error (.storageError jt)) ∧
    (∀ b p e, (Bucket.create_signed_url b p e t).2 = .error (.storageError jt)) ∧
    (∀ b, (Bucket.delete b t).2 = .error (.storageError jt)) ∧
    (∀ b, (Bucket.empty b t).2 = .error (.storageError jt)) ∧
    (∀ b p q, (Bucket.move b p q t).2 = .error (.storageError jt)) ∧
    (∀ b p q, (Bucket.copy b p q t).2 = .error (.storageError jt)) ∧
    (∀ b p, (Bucket.remove b p t).2 = .error (.storageError jt)) ∧
    (∀ b ps, (Bucket.bulk_remove b ps t).2 = .error (.storageError jt)) ∧
    (∀ b p o, (Bucket.list b p o t).2 = .error (.storageError jt)) ∧
    (∀ b p, (Bucket.download b p t).2 = .error (.storageError jt)) ∧
    (∀ b p f cc mt up, (Bucket.upload b p f cc mt up t).2 = .error (.storageError jt)) := by
  refine ⟨fun h => handle_response_success r h,
    fun h1 h2 => handle_response_storageError r j h1 h2,
    ?_, ?_, ?_, ?_, ?_, ?_, ?_, ?_, ?_, ?_, ?_, ?_, ?_, ?_, ?_⟩ <;>
  · intros
    exact netOp_storageError _ _ t jt (ht _).1 (ht _).2

theorem C1_uniform_storage_error_witness :
    (∀ req : Request, is_success ((err404Transport req).status) = false ∧
      (err404Transport req).json? = some (.str "nope")) ∧
    is_success (404 : Nat) = false ∧
    (StorageClient.get_bucket sampleClient "b" err404Transport).2 =
      .error (.storageError (.str "nope")) := by
  have ht : ∀ req : Request, is_success ((err404Transport req).status) = false ∧
      (err404Transport req).json? = some (.str "nope") := fun _ => ⟨rfl, rfl⟩
  exact ⟨ht, rfl,
    (C1_uniform_storage_error ⟨404, "x", some (.str "nope")⟩ (.str "nope")
      (.str "nope") err404Transport ht).2.2.2.1 sampleClient "b"⟩

/-- C10: when the service returns a non-2xx response whose body is not valid
JSON, `_handle_response` raises the JSON-decoding error — never a
`StorageError`, because the error body is decoded while constructing the
`StorageError` itself — and every operation surfaces that decoding error. -/
theorem C10_undecodable_error_body (r : Response) (t : Transport)
    (ht : ∀ req, is_success ((t req).status) = false ∧ (t req).json? = none) :
    (is_success r.status = false → r.json? = none →
      _handle_response r = .error .jsonDecodeError ∧
      ∀ j, _handle_response r ≠ .error (.storageError j)) ∧
    (∀ c, (StorageClient.list_buckets c t).2 = .error .jsonDecodeError) ∧
    (∀ c id, (StorageClient.get_bucket c id t).2 = .error .jsonDecodeError) ∧
    (∀ c id name public now,
      (StorageClient.create_bucket c id name public now t).2 = .error .jsonDecodeError) ∧
    (∀ c id, (StorageClient.empty_bucket c id t).2 = .error .jsonDecodeError) ∧
    (∀ c id, (StorageClient.delete_bucket c id t).2 = .error .jsonDecodeError) ∧
    (∀ b p e, (Bucket.create_signed_url b p e t).2 = .error .jsonDecodeError) ∧
    (∀ b, (Bucket.delete b t).2 = .error .jsonDecodeError) ∧
    (∀ b, (Bucket.empty b t).2 = .error .jsonDecodeError) ∧
    (∀ b p q, (Bucket.move b p q t).2 = .error .jsonDecodeError) ∧
    (∀ b p q, (Bucket.copy b p q t).2 = .error .jsonDecodeError) ∧
    (∀ b p, (Bucket.remove b p t).2 = .error .jsonDecodeError) ∧
    (∀ b ps, (Bucket.bulk_remove b ps t).2 = .error .jsonDecodeError) ∧
    (∀ b p o, (Bucket.list b p o t).2 = .error .jsonDecodeError) ∧
    (∀ b p, (Bucket.download b p t).2 = .error .jsonDecodeError) ∧
    (∀ b p f cc mt up, (Bucket.upload b p f cc mt up t).2 = .error .jsonDecodeError) := by
  refine ⟨fun h1 h2 => ⟨handle_response_decodeError r h1 h2, fun j hj => ?_⟩,
    ?_, ?_, ?_, ?_, ?_, ?_, ?_, ?_, ?_, ?_, ?_, ?_, ?_, ?_, ?_⟩
  · rw [handle_response_decodeError r h1 h2] at hj
    exact PyErr.noConfusion (Except.error.inj hj)
  all_goals
  · intros
    exact netOp_decodeError _ _ t (ht _).1 (ht _).2

theorem C10_undecodable_error_body_witness :
    (∀ req : Request, is_success ((err500RawTransport req).status) = false ∧
      (err500RawTransport req).json? = none) ∧
    (Bucket.move sampleBucket "a" "b" err500RawTransport).2 = .error .jsonDecodeError := by
  have ht : ∀ req : Request, is_success ((err500RawTransport req).status) = false ∧
      (err500RawTransport req).json? = none := fun _ => ⟨rfl, rfl⟩
  exact ⟨ht,
    (C10_undecodable_error_body ⟨500, "x", none⟩ err500RawTransport ht).2.2.2.2.2.2.2.2.2.1
      sampleBucket "a" "b"⟩

/-- C9: `File` construction fails for every input — the frozen dataclass
rejects the `__post_init__` timestamp assignment — so `Bucket.list` and
`Bucket.bulk_remove` can only ever return the empty list of `File` records. -/
theorem C9_file_never_constructed :
    (∀ name bucket_id owner id ca ua la md f,
      mkFile name bucket_id owner id ca ua la md ≠ .ok f) ∧
    (∀ b paths t files, (Bucket.bulk_remove b paths t).2 = .ok files → files = []) ∧
    (∀ b path options t files, (Bucket.list b path options t).2 = .ok files → files = []) := by
  refine ⟨mkFile_ne_ok, fun b paths t files h => ?_, fun b path options t files h => ?_⟩
  · obtain ⟨r, hr⟩ := netOp_ok_inv (bulk_remove_request b paths) decodeFileList t files h
    exact decodeFileList_ok r files hr
  · obtain ⟨r, hr⟩ := netOp_ok_inv (list_request b path options) decodeFileList t files h
    exact decodeFileList_ok r files hr

/-- C6: the listing body sent by `Bucket.list` equals the defaults
`{prefix: path or "", limit: 100, offset: 0, sortBy: {column: "name",
order: "asc"}}` shallow-merged with the caller's options, caller values
winning key by key; with no options the body is exactly the defaults, and
`{"limit": 10}` changes only `limit`. -/
theorem C6_list_options_merge (path : Option String) (options : List (String × Json))
    (hnd : (options.map Prod.fst).Nodup) :
    (∀ b, (list_request b path options).jsonBody =
      some (.obj (listRequestBody path options))) ∧
    (∀ k, dictLookup (listRequestBody path options) k =
      (dictLookup options k).orElse (fun _ => dictLookup (listDefaults path) k)) ∧
    listRequestBody path [] = listDefaults path ∧
    listRequestBody none [("limit", .num 10)] =
      [("prefix", .str ""), ("limit", .num 10), ("offset", .num 0),
       ("sortBy", .obj [("column", .str "name"), ("order", .str "asc")])] := by
  refine ⟨fun b => rfl, ?_, rfl, rfl⟩
  intro k
  unfold listRequestBody
  rw [dictLookup_merge _ _ _ hnd]
  rfl

theorem C6_list_options_merge_witness :
    (([("limit", Json.num 10)].map Prod.fst).Nodup) ∧
    dictLookup (listRequestBody none [("limit", Json.num 10)]) "limit" =
      (dictLookup [("limit", Json.num 10)] "limit").orElse
        (fun _ => dictLookup (listDefaults none) "limit") := by
  have hnd : (([("limit", Json.num 10)]).map Prod.fst).Nodup := by decide
  exact ⟨hnd, (C6_list_options_merge none [("limit", Json.num 10)] hnd).2.1 "limit"⟩

/-- C3: the upload request goes to `/object/{name}/{path}` with the multipart
filename equal to the last `/`-segment of `path` and the part content type
equal to `mime_type`, but it carries only the session headers on the wire:
the `cacheControl`, `contentType` and `upsert` entries exist only in the
locally built `uploadHeaders` dict, which is never attached to the request. -/
theorem C3_upload_headers_unsent (b : Bucket) (path file : String)
    (cache_control : Int) (mime_type : String) (upsert : Bool) (t : Transport) :
    (b.upload path file cache_control mime_type upsert t).1 =
      [{ method := .post, path := "/object/" ++ b.name ++ "/" ++ path,
         jsonBody := none, headers := b.client.headers,
         multipart := some
           { field := "file", filename := rsplitLastSeg path, content := file,
             contentType := mime_type } }] ∧
    dictLookup (b.uploadHeaders cache_control mime_type upsert) "cacheControl" =
      some (toString cache_control) ∧
    dictLookup (b.uploadHeaders cache_control mime_type upsert) "contentType" =
      some mime_type ∧
    dictLookup (b.uploadHeaders cache_control mime_type upsert) "upsert" =
      some (pyStrBool upsert) := by
  have hndlits :
      (([("cacheControl", toString cache_control), ("contentType", mime_type),
        ("upsert", pyStrBool upsert), ("Content-Type", mime_type)] :
        List (String × String)).map Prod.fst).Nodup := by
    show (["cacheControl", "contentType", "upsert", "Content-Type"] : List String).Nodup
    decide
  have hct : dictLookup (b.uploadHeaders cache_control mime_type upsert) "contentType" =
      some mime_type := by
    unfold Bucket.uploadHeaders
    rw [dictLookup_merge _ _ _ hndlits]
    rfl
  have hcc : dictLookup (b.uploadHeaders cache_control mime_type upsert) "cacheControl" =
      some (toString cache_control) := by
    unfold Bucket.uploadHeaders
    rw [dictLookup_merge _ _ _ hndlits]
    rfl
  have hup : dictLookup (b.uploadHeaders cache_control mime_type upsert) "upsert" =
      some (pyStrBool upsert) := by
    unfold Bucket.uploadHeaders
    rw [dictLookup_merge _ _ _ hndlits]
    rfl
  refine ⟨?_, hcc, hct, hup⟩
  show [upload_request b path file cache_control mime_type upsert] = _
  unfold upload_request
  rw [hct]
  rfl

theorem C9_file_never_constructed_witness :
    (Bucket.bulk_remove sampleBucket ["a", "b"] okEmptyArrTransport).2 =
      .ok ([] : List FileRec) ∧
    (Bucket.list sampleBucket none [] okEmptyArrTransport).2 = .ok ([] : List FileRec) ∧
    ([] : List FileRec) = [] :=
  ⟨rfl, rfl,
    C9_file_never_constructed.2.1 sampleBucket ["a", "b"] okEmptyArrTransport [] rfl⟩

end Supa
